import Mathlib

/-!
Verification of the dcos-e2e core subsystems against their specification:
the Docker image build pipeline (`_docker_build.py`), the artifact variant
probe (`cli/_utils.py`), and the node-reference resolver plus variant
validator (`cli/_validators.py`).  Python code is shallowly embedded:
dictionary lookups that may raise `KeyError` become `Option`, raised
exceptions become `Except` errors, and the side effects on the Docker image
store and the workspace directory are made explicit as returned data.
-/

namespace DcosE2e

/-! ## Image build pipeline (`src/dcos_e2e/backends/_docker/_docker_build.py`) -/

/-- The `Distribution` enumeration.  Its defining module is not part of the
sources at hand; the members are reconstructed from the uses in the sources:
`CENTOS_7` and `COREOS` appear in the Docker build mapping, and `RHEL_7`
appears in `tests/test_dcos_e2e/backends/aws/test_distributions.py`. -/
inductive Distribution where
  | CENTOS_7
  | COREOS
  | RHEL_7
  deriving DecidableEq, Repr

/-- The `DockerVersion` enumeration (the spec's `RuntimeVersion`).  Its
defining module is not part of the sources at hand.  Modelled from the spec:
the spec lists `v1.11.2`, `v1.13.1`, `v17.12.1-ce` as examples ("e.g.") and
stipulates an `UnsupportedRuntimeVersion` error for versions outside the
fixed mapping, so the enumeration is modelled with one additional member,
`v_other`, standing for any version absent from the mapping in
`build_docker_image`. -/
inductive DockerVersion where
  | v1_11_2
  | v1_13_1
  | v17_12_1_ce
  | v_other
  deriving DecidableEq, Repr

/-- The `dcos_docker_distros` dictionary in `_base_dockerfile`.  A missing
key raises `KeyError` in Python; here the lookup returns `none`. -/
def dcos_docker_distros : Distribution → Option String
  | Distribution.CENTOS_7 => some "centos-7"
  | Distribution.COREOS => some "coreos"
  | _ => none

/-- The directory holding the Dockerfile of the base OS image, as computed by
`_base_dockerfile`.  The absolute prefix of the module's own directory
(obtained via `inspect.stack` at run time) is elided; the path is given
relative to that directory. -/
def base_dockerfile (linux_distribution : Distribution) : Option String :=
  match dcos_docker_distros linux_distribution with
  | none => none
  | some distro_path_segment =>
      some ("resources/dockerfiles/base/" ++ distro_path_segment)

/-- The directory holding the Dockerfile installing Docker, as computed by
`_docker_dockerfile`, relative to the module's own directory. -/
def docker_dockerfile : String :=
  "resources/dockerfiles/base-docker"

/-- The `docker_versions` dictionary in `build_docker_image`.  A missing key
raises `KeyError` in Python; here the lookup returns `none`. -/
def docker_versions : DockerVersion → Option String
  | DockerVersion.v1_11_2 => some "1.11.2"
  | DockerVersion.v1_13_1 => some "1.13.1"
  | DockerVersion.v17_12_1_ce => some "17.12.1-ce"
  | DockerVersion.v_other => none

/-- One call to `client.images.build`: the build context path, the tag the
produced image is stored under, the `rm`/`forcerm` flags, and the build
arguments. -/
structure BuildStep where
  path : String
  tag : String
  rm : Bool
  forcerm : Bool
  buildargs : List (String × String)
  deriving DecidableEq, Repr

/-- Errors of `build_docker_image`.  In Python both are `KeyError`s, raised
by the distribution lookup in `_base_dockerfile` and the version lookup in
`build_docker_image` respectively; the spec names them `UnsupportedDistribution`
and `UnsupportedRuntimeVersion`. -/
inductive BuildError where
  | UnsupportedDistribution (d : Distribution)
  | UnsupportedRuntimeVersion (v : DockerVersion)
  deriving DecidableEq, Repr

/-- `build_docker_image`, with its image-store side effects made explicit:
the first component is the list of build steps performed, in order (each of
which creates or overwrites its tag in the local image store), and the
second is the error the call raised, if any.  The statement order of the
source is kept: the distribution lookup happens before any build, the base
build runs, and only then is `docker_versions[docker_version]` evaluated,
as an argument of the second build call. -/
def build_docker_image (tag : String) (linux_distribution : Distribution)
    (docker_version : DockerVersion) : List BuildStep × Option BuildError :=
  let base_tag := tag ++ ":base"
  match base_dockerfile linux_distribution with
  | none => ([], some (BuildError.UnsupportedDistribution linux_distribution))
  | some base_path =>
      let step1 : BuildStep :=
        { path := base_path, tag := base_tag, rm := true, forcerm := true,
          buildargs := [] }
      match docker_versions docker_version with
      | none =>
          ([step1], some (BuildError.UnsupportedRuntimeVersion docker_version))
      | some version_string =>
          let step2 : BuildStep :=
            { path := docker_dockerfile, tag := tag, rm := true,
              forcerm := true,
              buildargs := [("DOCKER_VERSION", version_string)] }
          ([step1, step2], none)

/-! ## Artifact variant probe (`src/cli/_utils.py`) -/

/-- Python's `str.startswith`, on the character lists of the strings. -/
def startswith (s pre : String) : Bool :=
  pre.data.isPrefixOf s.data

/-- Containment of consecutive characters: Python's `sub in s`. -/
def isInfixCh (needle : List Char) : List Char → Bool
  | [] => needle.isEmpty
  | c :: rest => needle.isPrefixOf (c :: rest) || isInfixCh needle rest

/-- Python's `sub in s` on strings. -/
def containsSub (s sub : String) : Bool :=
  isInfixCh sub.data s.data

/-- Helper for `pySplitlines`: accumulate the current line (reversed) while
scanning the remaining characters. -/
def splitlinesAux (acc : List Char) : List Char → List String
  | [] => if acc.isEmpty then [] else [String.mk acc.reverse]
  | '\r' :: '\n' :: rest => String.mk acc.reverse :: splitlinesAux [] rest
  | '\n' :: rest => String.mk acc.reverse :: splitlinesAux [] rest
  | '\r' :: rest => String.mk acc.reverse :: splitlinesAux [] rest
  | c :: rest => splitlinesAux (c :: acc) rest

/-- Python's `str.splitlines` restricted to the line boundaries `\n`, `\r`
and `\r\n` (Python also splits on rarer separators such as `\v`, `\f`,
which do not occur in the outputs at hand): no trailing empty line is
produced for a trailing newline, and the empty string yields no lines. -/
def pySplitlines (s : String) : List String :=
  splitlinesAux [] s.data

/-- JSON values as produced by Python's `json.loads`.  Numbers are kept as
their source text, which is enough here: the code only ever compares a JSON
value against the string `"ee"`. -/
inductive Json where
  | null
  | bool (b : Bool)
  | num (source : String)
  | str (s : String)
  | arr (elems : List Json)
  | obj (members : List (String × Json))

/-- Whitespace skipping of the JSON grammar (space, tab, newline, return). -/
def skipWs : List Char → List Char
  | c :: rest =>
      if c = ' ' ∨ c = '\t' ∨ c = '\n' ∨ c = '\r' then skipWs rest
      else c :: rest
  | [] => []

/-- Numeric value of a hexadecimal digit. -/
def hexVal (c : Char) : Option Nat :=
  if '0' ≤ c ∧ c ≤ '9' then some (c.toNat - '0'.toNat)
  else if 'a' ≤ c ∧ c ≤ 'f' then some (c.toNat - 'a'.toNat + 10)
  else if 'A' ≤ c ∧ c ≤ 'F' then some (c.toNat - 'A'.toNat + 10)
  else none

/-- Parse the body of a JSON string literal (the opening quote already
consumed), returning the decoded string and the remaining input.  Escapes
are decoded as in the JSON grammar; unescaped control characters are
rejected, as Python's strict `json.loads` does. -/
def parseJString : List Char → List Char → Option (String × List Char)
  | [], _ => none
  | '"' :: rest, acc => some (String.mk acc.reverse, rest)
  | '\\' :: '"' :: rest, acc => parseJString rest ('"' :: acc)
  | '\\' :: '\\' :: rest, acc => parseJString rest ('\\' :: acc)
  | '\\' :: '/' :: rest, acc => parseJString rest ('/' :: acc)
  | '\\' :: 'n' :: rest, acc => parseJString rest ('\n' :: acc)
  | '\\' :: 't' :: rest, acc => parseJString rest ('\t' :: acc)
  | '\\' :: 'r' :: rest, acc => parseJString rest ('\r' :: acc)
  | '\\' :: 'b' :: rest, acc => parseJString rest (Char.ofNat 8 :: acc)
  | '\\' :: 'f' :: rest, acc => parseJString rest (Char.ofNat 12 :: acc)
  | '\\' :: 'u' :: a :: b :: c :: d :: rest, acc =>
      match hexVal a, hexVal b, hexVal c, hexVal d with
      | some x, some y, some z, some w =>
          parseJString rest (Char.ofNat (x * 4096 + y * 256 + z * 16 + w) :: acc)
      | _, _, _, _ => none
  | '\\' :: _, _ => none
  | c :: rest, acc =>
      if c.toNat < 32 then none else parseJString rest (c :: acc)

/-- A character that may occur in a JSON numeric token. -/
def isNumChar (c : Char) : Bool :=
  c.isDigit || c = '-' || c = '+' || c = '.' || c = 'e' || c = 'E'

mutual

/-- Parse one JSON value, returning it and the remaining input.  Models
Python's `json.loads` grammar; numeric tokens are taken greedily and kept
as text (exact for well-formed JSON, which is all the claims need).  The
fuel argument dominates the recursion; `length input + 1` is enough since
every recursive call first consumes at least one character. -/
def parseValue : Nat → List Char → Option (Json × List Char)
  | 0, _ => none
  | Nat.succ fuel, cs =>
    match skipWs cs with
    | [] => none
    | c :: rest =>
      if c = '"' then
        match parseJString rest [] with
        | some (s, r) => some (Json.str s, r)
        | none => none
      else if c = '\x7b' then
        match skipWs rest with
        | '\x7d' :: r => some (Json.obj [], r)
        | r2 => parseMembers fuel r2 []
      else if c = '[' then
        match skipWs rest with
        | ']' :: r => some (Json.arr [], r)
        | r2 => parseElems fuel r2 []
      else if c = 't' then
        match rest with
        | 'r' :: 'u' :: 'e' :: r => some (Json.bool true, r)
        | _ => none
      else if c = 'f' then
        match rest with
        | 'a' :: 'l' :: 's' :: 'e' :: r => some (Json.bool false, r)
        | _ => none
      else if c = 'n' then
        match rest with
        | 'u' :: 'l' :: 'l' :: r => some (Json.null, r)
        | _ => none
      else if c = '-' ∨ c.isDigit then
        let tok := (c :: rest).takeWhile isNumChar
        some (Json.num (String.mk tok), (c :: rest).drop tok.length)
      else none

/-- Parse the members of a JSON object after its opening brace (first key
about to start), accumulating parsed members in reverse. -/
def parseMembers : Nat → List Char → List (String × Json) →
    Option (Json × List Char)
  | 0, _, _ => none
  | Nat.succ fuel, cs, acc =>
    match skipWs cs with
    | '"' :: rest =>
      match parseJString rest [] with
      | none => none
      | some (key, r1) =>
        match skipWs r1 with
        | ':' :: r2 =>
          match parseValue fuel r2 with
          | none => none
          | some (v, r3) =>
            match skipWs r3 with
            | ',' :: r4 => parseMembers fuel r4 ((key, v) :: acc)
            | '\x7d' :: r4 => some (Json.obj ((key, v) :: acc).reverse, r4)
            | _ => none
        | _ => none
    | _ => none

/-- Parse the elements of a JSON array after its opening bracket (first
element about to start), accumulating parsed elements in reverse. -/
def parseElems : Nat → List Char → List Json → Option (Json × List Char)
  | 0, _, _ => none
  | Nat.succ fuel, cs, acc =>
    match parseValue fuel cs with
    | none => none
    | some (v, r) =>
      match skipWs r with
      | ',' :: r2 => parseElems fuel r2 (v :: acc)
      | ']' :: r2 => some (Json.arr (v :: acc).reverse, r2)
      | _ => none

end

/-- Python's `json.loads`: parse the whole string as a single JSON value,
allowing surrounding whitespace and nothing else; any failure (including
the empty input) raises `json.JSONDecodeError`, modelled as `none`. -/
def json_loads (s : String) : Option Json :=
  match parseValue (s.length + 1) s.data with
  | some (j, rest) => if (skipWs rest).isEmpty then some j else none
  | none => none

/-- Lookup of a key in a parsed JSON object, last duplicate winning as in a
Python dict built by `json.loads`. -/
def lookupLast (key : String) : List (String × Json) → Option Json
  | [] => none
  | (k, v) :: rest =>
    match lookupLast key rest with
    | some v2 => some v2
    | none => if k = key then some v else none

/-- Python's `version_info['variant']`: a present key yields its value; a
missing key raises `KeyError` and a non-dict value raises `TypeError`, both
modelled as `none`. -/
def getField (j : Json) (key : String) : Option Json :=
  match j with
  | Json.obj members => lookupLast key members
  | _ => none

/-- Errors of the probe.  In Python the failures are a raised
`json.JSONDecodeError` or `KeyError`/`TypeError`; the spec names this
condition `MalformedVersionReport`. -/
inductive ProbeError where
  | MalformedVersionReport
  deriving DecidableEq, Repr

/-- Python's `variant == 'ee'`: true exactly when the JSON value is the
string `"ee"`. -/
def variantEqEe : Json → Bool
  | Json.str s => s = "ee"
  | _ => false

/-- The line filter of `is_enterprise`: a line is kept when it does not
start with `"Extracting image"`, does not start with `"Loaded image"` and
does not contain `".tar"`. -/
def keeps_line (line : String) : Bool :=
  !startswith line "Extracting image" && !startswith line "Loaded image" &&
    !containsSub line ".tar"

/-- The filtering and joining step of `is_enterprise`: split the output
into lines, keep the non-noise lines, join with single spaces. -/
def filtered_joined (output : String) : String :=
  String.intercalate " " ((pySplitlines output).filter keeps_line)

/-- The pure tail of `is_enterprise`, taking the decoded standard output of
the artifact's `--version` invocation (the `subprocess` call itself is
input/output and is modelled at the caller, `validate_variant`): filter and
join the lines, parse as JSON, read `'variant'`, compare with `'ee'`. -/
def is_enterprise (output : String) : Except ProbeError Bool :=
  match json_loads (filtered_joined output) with
  | none => Except.error ProbeError.MalformedVersionReport
  | some version_info =>
    match getField version_info "variant" with
    | none => Except.error ProbeError.MalformedVersionReport
    | some variant => Except.ok (variantEqEe variant)

/-- The product variants distinguished by the probe. -/
inductive ArtifactVariant where
  | ENTERPRISE
  | OPEN_SOURCE
  deriving DecidableEq, Repr

/-- The spec's `classify`: the boolean of `is_enterprise` read as a
variant, `true` meaning ENTERPRISE. -/
def classify (output : String) : Except ProbeError ArtifactVariant :=
  match is_enterprise output with
  | Except.error e => Except.error e
  | Except.ok b =>
      Except.ok
        (if b then ArtifactVariant.ENTERPRISE else ArtifactVariant.OPEN_SOURCE)

/-! ## Node reference resolution (`src/cli/_validators.py`, `validate_node_reference`) -/

/-- Python's `str.upper` for ASCII text (all the symbolic references at
hand are ASCII). -/
def pyUpper (s : String) : String :=
  String.mk (s.data.map Char.toUpper)

/-- The identity facts of one running container, as read by
`ContainerInspectView.to_dict` (the dictionary keys of the source become
fields). -/
structure ContainerRecord where
  e2e_reference : String
  ip_address : String
  docker_container_name : String
  docker_container_id : String
  deriving DecidableEq, Repr

/-- The `accepted` tuple of `validate_node_reference`: the reference
strings under which one container may be addressed. -/
def accepted (c : ContainerRecord) : List String :=
  [c.e2e_reference, pyUpper c.e2e_reference, c.ip_address,
    c.docker_container_name, c.docker_container_id]

/-- The addressable node handle produced by `cluster_containers.to_node`:
what the external command transport needs, the node's IP address and its
container id. -/
structure NodeHandle where
  ip_address : String
  docker_container_id : String
  deriving DecidableEq, Repr

/-- Build the node handle of a container record. -/
def to_node (c : ContainerRecord) : NodeHandle :=
  { ip_address := c.ip_address,
    docker_container_id := c.docker_container_id }

/-- The error raised when no container matches: in the source a
`click.BadParameter` whose message interpolates the cluster id and the
literal reference string; modelled as carrying those two values. -/
structure NodeNotFound where
  cluster_id : String
  reference : String
  deriving DecidableEq, Repr

/-- The matching loop of `validate_node_reference`: walk the cluster's
containers (the union of masters, agents and public agents, in the
iteration order the runtime happens to produce — a Python set, so
implementation-defined) and return the node of the first container whose
`accepted` tuple contains the reference; raise `NodeNotFound` otherwise. -/
def validate_node_reference (cluster_id : String)
    (containers : List ContainerRecord) (value : String) :
    Except NodeNotFound NodeHandle :=
  match containers with
  | [] => Except.error { cluster_id := cluster_id, reference := value }
  | c :: rest =>
      if value ∈ accepted c then Except.ok (to_node c)
      else validate_node_reference cluster_id rest value

/-! ## Variant validation (`src/cli/_validators.py`, `validate_variant`) -/

/-- The outcome of the `subprocess.check_output` invocation inside
`is_enterprise`: either the process exited non-zero
(`subprocess.CalledProcessError`, carrying the captured stderr), or it
succeeded and produced the decoded output text. -/
inductive ProbeOutcome where
  | invocation_failure (stderr : String)
  | output (text : String)
  deriving DecidableEq, Repr

/-- Errors propagating out of `validate_variant`'s probe: the re-raised
`subprocess.CalledProcessError`, or the uncaught malformed-report
exception. -/
inductive VariantError where
  | CalledProcessError (stderr : String)
  | MalformedVersionReport
  deriving DecidableEq, Repr

/-- The full run of `is_enterprise` including the subprocess step: a
non-zero exit raises `CalledProcessError`; otherwise the pure tail
(`is_enterprise`) classifies the output. -/
def is_enterprise_run (outcome : ProbeOutcome) : Except VariantError Bool :=
  match outcome with
  | ProbeOutcome.invocation_failure stderr =>
      Except.error (VariantError.CalledProcessError stderr)
  | ProbeOutcome.output text =>
    match is_enterprise text with
    | Except.error ProbeError.MalformedVersionReport =>
        Except.error VariantError.MalformedVersionReport
    | Except.ok b => Except.ok b

/-- What one call to `validate_variant` did: its returned value or raised
error, whether it created a probe workspace directory, and whether it
removed that directory before returning or raising. -/
structure VariantResult where
  result : Except VariantError String
  workspace_created : Bool
  workspace_removed : Bool
  deriving Repr

/-- `validate_variant`, with the workspace-directory side effects made
explicit.  A non-`'auto'` value is returned as is, with no workspace
touched.  For `'auto'` a workspace is created and `is_enterprise` is run in
it; the source's `try`/`except` catches only
`subprocess.CalledProcessError` (removing the workspace before
re-raising), the success path removes the workspace before returning, and
any other exception — the malformed-report case — propagates without
reaching either `rmtree` call. -/
def validate_variant (value : String) (outcome : ProbeOutcome) :
    VariantResult :=
  if value ≠ "auto" then
    { result := Except.ok value, workspace_created := false,
      workspace_removed := false }
  else
    match is_enterprise_run outcome with
    | Except.error (VariantError.CalledProcessError stderr) =>
        { result := Except.error (VariantError.CalledProcessError stderr),
          workspace_created := true, workspace_removed := true }
    | Except.error VariantError.MalformedVersionReport =>
        { result := Except.error VariantError.MalformedVersionReport,
          workspace_created := true, workspace_removed := false }
    | Except.ok enterprise =>
        { result := Except.ok (if enterprise then "enterprise" else "oss"),
          workspace_created := true, workspace_removed := true }

/-! ## Specification-side restatement of the probe, for refinement -/

/-- The probe's classification as the specification words it, to be compared
with the embedding of the source (`classify`): drop exactly the lines that
start with `"Extracting image"`, start with `"Loaded image"`, or contain
`".tar"`; join the remaining lines with single spaces; parse the result as
JSON; return ENTERPRISE if and only if the JSON's `variant` field equals
`"ee"`, and OPEN_SOURCE for any other variant value. -/
def classify_spec (output : String) : Except ProbeError ArtifactVariant :=
  match json_loads (String.intercalate " "
      ((pySplitlines output).filter (fun line =>
        !(startswith line "Extracting image" || startswith line "Loaded image" ||
          containsSub line ".tar")))) with
  | none => Except.error ProbeError.MalformedVersionReport
  | some j =>
    match getField j "variant" with
    | none => Except.error ProbeError.MalformedVersionReport
    | some v =>
        Except.ok
          (if variantEqEe v then ArtifactVariant.ENTERPRISE
           else ArtifactVariant.OPEN_SOURCE)

/-! ## Concrete fixtures used by witnesses and counterexamples -/

/-- The specification's example master container: symbolic reference
`master_0`, ip `10.0.0.5`, container id `abc123`. -/
def exampleMaster : ContainerRecord :=
  { e2e_reference := "master_0", ip_address := "10.0.0.5",
    docker_container_name := "dcos-e2e-default-master-0",
    docker_container_id := "abc123" }

/-- The node handle of the example master. -/
def exampleHandle : NodeHandle :=
  to_node exampleMaster

/-! ## Theorems -/

/-- Appending the `:base` suffix always yields a different tag. -/
theorem base_tag_ne (tag : String) : tag ++ ":base" ≠ tag := by
  intro h
  have hlen := congrArg String.length h
  rw [String.length_append] at hlen
  have hbase : (":base" : String).length = 5 := rfl
  omega

/-- C2: for every Distribution outside the fixed distribution mapping,
`build_docker_image` fails with `UnsupportedDistribution` having performed
no build step, so no image tag (neither the base-layer tag nor the
runtime-layer tag) is created or overwritten. -/
theorem claim_C2 (tag : String) (d : Distribution) (v : DockerVersion)
    (h : base_dockerfile d = none) :
    build_docker_image tag d v =
      ([], some (BuildError.UnsupportedDistribution d)) := by
  simp only [build_docker_image, h]

/-- Witness for C2 at the concrete unmapped distribution `RHEL_7`. -/
theorem claim_C2_witness :
    base_dockerfile Distribution.RHEL_7 = none ∧
      build_docker_image "dcos-docker" Distribution.RHEL_7 DockerVersion.v1_11_2 =
        ([], some (BuildError.UnsupportedDistribution Distribution.RHEL_7)) :=
  ⟨rfl, claim_C2 "dcos-docker" Distribution.RHEL_7 DockerVersion.v1_11_2 rfl⟩

/-- Counterexample to C1 as stated: with a valid distribution and a runtime
version outside the fixed mapping, the call does fail with
`UnsupportedRuntimeVersion`, but an image mutation has already happened —
the base-layer tag `"dcos-docker:base"` was built and created/overwritten
before the version lookup raised. -/
theorem claim_C1_counterexample :
    (build_docker_image "dcos-docker" Distribution.CENTOS_7
        DockerVersion.v_other).2 =
      some (BuildError.UnsupportedRuntimeVersion DockerVersion.v_other) ∧
    (build_docker_image "dcos-docker" Distribution.CENTOS_7
        DockerVersion.v_other).1.map BuildStep.tag = ["dcos-docker:base"] ∧
    ("dcos-docker:base" : String) ≠ "dcos-docker" :=
  ⟨rfl, rfl, by decide⟩

/-- C1 (amended): for every runtime version outside the fixed version
mapping and any valid distribution, `build_docker_image` fails with
`UnsupportedRuntimeVersion` and never creates or overwrites the
runtime-layer tag — but the base-layer build has already run, so the
base-layer tag is created or overwritten before the failure. -/
theorem claim_C1 (tag : String) (d : Distribution) (v : DockerVersion)
    (p : String) (hd : base_dockerfile d = some p)
    (hv : docker_versions v = none) :
    build_docker_image tag d v =
      ([{ path := p, tag := tag ++ ":base", rm := true, forcerm := true,
          buildargs := [] }],
        some (BuildError.UnsupportedRuntimeVersion v)) ∧
    ∀ s ∈ (build_docker_image tag d v).1, s.tag ≠ tag := by
  have hbuild : build_docker_image tag d v =
      ([{ path := p, tag := tag ++ ":base", rm := true, forcerm := true,
          buildargs := [] }],
        some (BuildError.UnsupportedRuntimeVersion v)) := by
    simp only [build_docker_image, hd, hv]
  refine ⟨hbuild, ?_⟩
  intro s hs
  rw [hbuild] at hs
  simp only [List.mem_singleton] at hs
  rw [hs]
  exact base_tag_ne tag

/-- Witness for C1 (amended) at `CENTOS_7` and the unmapped version. -/
theorem claim_C1_witness :
    base_dockerfile Distribution.CENTOS_7 =
        some "resources/dockerfiles/base/centos-7" ∧
      docker_versions DockerVersion.v_other = none ∧
      (build_docker_image "dcos-docker" Distribution.CENTOS_7
          DockerVersion.v_other =
        ([{ path := "resources/dockerfiles/base/centos-7",
            tag := "dcos-docker" ++ ":base", rm := true, forcerm := true,
            buildargs := [] }],
          some (BuildError.UnsupportedRuntimeVersion DockerVersion.v_other)) ∧
        ∀ s ∈ (build_docker_image "dcos-docker" Distribution.CENTOS_7
            DockerVersion.v_other).1, s.tag ≠ "dcos-docker") :=
  ⟨rfl, rfl,
    claim_C1 "dcos-docker" Distribution.CENTOS_7 DockerVersion.v_other
      "resources/dockerfiles/base/centos-7" rfl rfl⟩

/-- C3: for every valid (Distribution, RuntimeVersion) pair and tag, the
build performs exactly two sequential steps — first the base layer from the
distribution-mapped context tagged with the caller's tag plus `":base"`,
then the runtime layer from the fixed second context tagged with the
caller's tag, passing the canonical version string as the `DOCKER_VERSION`
build argument — with intermediate containers force-removed (`rm` and
`forcerm`) in both steps, and the two tags are distinct. -/
theorem claim_C3 (tag : String) (d : Distribution) (v : DockerVersion)
    (p s : String) (hd : base_dockerfile d = some p)
    (hv : docker_versions v = some s) :
    build_docker_image tag d v =
      ([{ path := p, tag := tag ++ ":base", rm := true, forcerm := true,
          buildargs := [] },
        { path := docker_dockerfile, tag := tag, rm := true, forcerm := true,
          buildargs := [("DOCKER_VERSION", s)] }], none) ∧
    tag ++ ":base" ≠ tag := by
  constructor
  · simp only [build_docker_image, hd, hv]
  · exact base_tag_ne tag

/-- Witness for C3 at `COREOS` and version `v1_13_1`. -/
theorem claim_C3_witness :
    base_dockerfile Distribution.COREOS =
        some "resources/dockerfiles/base/coreos" ∧
      docker_versions DockerVersion.v1_13_1 = some "1.13.1" ∧
      (build_docker_image "dcos-docker" Distribution.COREOS
          DockerVersion.v1_13_1 =
        ([{ path := "resources/dockerfiles/base/coreos",
            tag := "dcos-docker" ++ ":base", rm := true, forcerm := true,
            buildargs := [] },
          { path := docker_dockerfile, tag := "dcos-docker", rm := true,
            forcerm := true,
            buildargs := [("DOCKER_VERSION", "1.13.1")] }], none) ∧
        "dcos-docker" ++ ":base" ≠ "dcos-docker") :=
  ⟨rfl, rfl,
    claim_C3 "dcos-docker" Distribution.COREOS DockerVersion.v1_13_1
      "resources/dockerfiles/base/coreos" "1.13.1" rfl rfl⟩

/-- The classification written as one match over the parsed, filtered
output: folding the boolean-to-variant step of `classify` into the
JSON-inspection tail of `is_enterprise`. -/
theorem classify_as_tail (output : String) :
    classify output =
      match json_loads (filtered_joined output) with
      | none => Except.error ProbeError.MalformedVersionReport
      | some j =>
        match getField j "variant" with
        | none => Except.error ProbeError.MalformedVersionReport
        | some v =>
            Except.ok
              (if variantEqEe v then ArtifactVariant.ENTERPRISE
               else ArtifactVariant.OPEN_SOURCE) := by
  unfold classify is_enterprise
  cases json_loads (filtered_joined output) with
  | none => rfl
  | some j =>
    dsimp only
    cases getField j "variant" with
    | none => rfl
    | some v => rfl

/-- The source's conjunctive keep-condition equals the specification's
negated disjunctive drop-condition, line by line. -/
theorem keeps_line_eq_not_dropped (line : String) :
    keeps_line line =
      !(startswith line "Extracting image" || startswith line "Loaded image" ||
        containsSub line ".tar") := by
  simp only [keeps_line, Bool.not_or, Bool.and_assoc]

/-- C4: for every artifact output text, `classify` drops exactly the lines
that start with `"Extracting image"`, start with `"Loaded image"`, or
contain `".tar"`, joins the rest with single spaces, parses the result as
JSON, and returns ENTERPRISE if and only if the `variant` field equals
`"ee"`, OPEN_SOURCE for any other variant value — that is, the embedded
source agrees with the specification-side restatement on every input. -/
theorem claim_C4 (output : String) : classify output = classify_spec output := by
  rw [classify_as_tail]
  unfold classify_spec filtered_joined
  have hfilter : (pySplitlines output).filter keeps_line =
      (pySplitlines output).filter (fun line =>
        !(startswith line "Extracting image" || startswith line "Loaded image" ||
          containsSub line ".tar")) :=
    List.filter_congr (fun line _ => keeps_line_eq_not_dropped line)
  rw [hfilter]

/-- C5: whenever the filtered, space-joined text fails to parse as JSON or
the parsed JSON lacks a `variant` field, `classify` fails with
`MalformedVersionReport`. -/
theorem claim_C5 (output : String)
    (h : (json_loads (filtered_joined output)).bind
        (fun j => getField j "variant") = none) :
    classify output = Except.error ProbeError.MalformedVersionReport := by
  unfold classify is_enterprise
  cases hj : json_loads (filtered_joined output) with
  | none => rfl
  | some j =>
    rw [hj, Option.some_bind] at h
    dsimp only
    rw [h]

/-- Witness for C5 on an output whose every line is filtered away, so the
remaining text is empty and not valid JSON. -/
theorem claim_C5_witness :
    (json_loads
        (filtered_joined "Extracting image sha256:abc\nLoaded image: foo.tar")).bind
        (fun j => getField j "variant") = none ∧
      classify "Extracting image sha256:abc\nLoaded image: foo.tar" =
        Except.error ProbeError.MalformedVersionReport :=
  ⟨rfl, claim_C5 "Extracting image sha256:abc\nLoaded image: foo.tar" rfl⟩

/-- C9: classification is deterministic — two runs of `classify` over the
same artifact output text give the same variant. -/
theorem claim_C9 (output1 output2 : String) (h : output1 = output2) :
    classify output1 = classify output2 := by
  rw [h]

/-- Witness for C9 at a concrete enterprise version report. -/
theorem claim_C9_witness :
    ("\x7b\"variant\": \"ee\", \"version\": \"1.11.0\"\x7d" : String) =
        "\x7b\"variant\": \"ee\", \"version\": \"1.11.0\"\x7d" ∧
      classify "\x7b\"variant\": \"ee\", \"version\": \"1.11.0\"\x7d" =
        classify "\x7b\"variant\": \"ee\", \"version\": \"1.11.0\"\x7d" :=
  ⟨rfl, claim_C9 "\x7b\"variant\": \"ee\", \"version\": \"1.11.0\"\x7d"
    "\x7b\"variant\": \"ee\", \"version\": \"1.11.0\"\x7d" rfl⟩

/-- When no container of the cluster accepts the reference, the resolver
raises the not-found error carrying the cluster id and the reference. -/
theorem resolve_not_found (cluster_id : String) (cs : List ContainerRecord)
    (value : String) (h : ∀ c ∈ cs, value ∉ accepted c) :
    validate_node_reference cluster_id cs value =
      Except.error { cluster_id := cluster_id, reference := value } := by
  induction cs with
  | nil => rfl
  | cons c rest ih =>
    have hc := h c (List.mem_cons_self c rest)
    simp only [validate_node_reference, if_neg hc]
    exact ih fun c' hc' => h c' (List.mem_cons_of_mem c hc')

/-- The resolver's loop returns the node of the first container whose
accepted references contain the value, and the not-found error when there
is none. -/
theorem resolve_eq_find (cluster_id : String) (cs : List ContainerRecord)
    (value : String) :
    validate_node_reference cluster_id cs value =
      match cs.find? (fun c => decide (value ∈ accepted c)) with
      | some c => Except.ok (to_node c)
      | none => Except.error { cluster_id := cluster_id, reference := value } := by
  induction cs with
  | nil => rfl
  | cons c rest ih =>
    by_cases hc : value ∈ accepted c
    · have hfind : (c :: rest).find? (fun c => decide (value ∈ accepted c)) =
          some c :=
        List.find?_cons_of_pos _ (by simpa using hc)
      rw [hfind]
      simp only [validate_node_reference, if_pos hc]
    · have hfind : (c :: rest).find? (fun c => decide (value ∈ accepted c)) =
          rest.find? (fun c => decide (value ∈ accepted c)) :=
        List.find?_cons_of_neg _ (by simpa using hc)
      rw [hfind]
      simp only [validate_node_reference, if_neg hc]
      exact ih

/-- C6: the references a container record is resolvable by are exactly its
symbolic reference, the symbolic reference upper-cased, its IP address, its
container name and its container id; the resolver returns the first record
whose accepted set contains the reference; and on the specification's
one-master cluster (`master_0` / `10.0.0.5` / `abc123`), resolving by the
symbolic reference, its upper-cased form, the IP address and the container
id all yield the same node handle. -/
theorem claim_C6 :
    (∀ c : ContainerRecord, accepted c =
      [c.e2e_reference, pyUpper c.e2e_reference, c.ip_address,
        c.docker_container_name, c.docker_container_id]) ∧
    (∀ (cluster_id : String) (cs : List ContainerRecord) (value : String),
      validate_node_reference cluster_id cs value =
        match cs.find? (fun c => decide (value ∈ accepted c)) with
        | some c => Except.ok (to_node c)
        | none =>
            Except.error { cluster_id := cluster_id, reference := value }) ∧
    validate_node_reference "default" [exampleMaster] "master_0" =
        Except.ok exampleHandle ∧
    validate_node_reference "default" [exampleMaster] "MASTER_0" =
        Except.ok exampleHandle ∧
    validate_node_reference "default" [exampleMaster] "10.0.0.5" =
        Except.ok exampleHandle ∧
    validate_node_reference "default" [exampleMaster] "abc123" =
        Except.ok exampleHandle :=
  ⟨fun _ => rfl, resolve_eq_find, rfl, rfl, rfl, rfl⟩

/-- C7: for every cluster topology and reference string in no record's
accepted set, the resolver fails with a not-found error carrying both the
cluster id and the literal reference string, and returns no node handle. -/
theorem claim_C7 (cluster_id : String) (cs : List ContainerRecord)
    (value : String) (h : ∀ c ∈ cs, value ∉ accepted c) :
    validate_node_reference cluster_id cs value =
      Except.error { cluster_id := cluster_id, reference := value } :=
  resolve_not_found cluster_id cs value h

/-- Witness for C7: `master_1` on the one-master cluster is not found. -/
theorem claim_C7_witness :
    (∀ c ∈ [exampleMaster], "master_1" ∉ accepted c) ∧
      validate_node_reference "default" [exampleMaster] "master_1" =
        Except.error { cluster_id := "default", reference := "master_1" } :=
  ⟨by decide, claim_C7 "default" [exampleMaster] "master_1" (by decide)⟩

/-- C10: symbolic-reference matching is not fully case-insensitive — a
reference equal to a record's symbolic reference only up to case, yet
distinct from the stored form and from its fully upper-cased form (and
from the record's IP, name and id), matches no record, so the resolver
fails with the not-found error. -/
theorem claim_C10 (cluster_id : String) (cs : List ContainerRecord)
    (value : String)
    (h : ∀ c ∈ cs,
      pyUpper value = pyUpper c.e2e_reference ∧ value ≠ c.e2e_reference ∧
      value ≠ pyUpper c.e2e_reference ∧ value ≠ c.ip_address ∧
      value ≠ c.docker_container_name ∧ value ≠ c.docker_container_id) :
    validate_node_reference cluster_id cs value =
      Except.error { cluster_id := cluster_id, reference := value } := by
  apply resolve_not_found
  intro c hc
  obtain ⟨-, h1, h2, h3, h4, h5⟩ := h c hc
  simp only [accepted, List.mem_cons, List.not_mem_nil, or_false]
  push_neg
  exact ⟨h1, h2, h3, h4, h5⟩

/-- Witness for C10: `Master_0` is rejected on the one-master cluster whose
stored symbolic reference is `master_0`. -/
theorem claim_C10_witness :
    (∀ c ∈ [exampleMaster],
      pyUpper "Master_0" = pyUpper c.e2e_reference ∧
      "Master_0" ≠ c.e2e_reference ∧
      "Master_0" ≠ pyUpper c.e2e_reference ∧
      "Master_0" ≠ c.ip_address ∧
      "Master_0" ≠ c.docker_container_name ∧
      "Master_0" ≠ c.docker_container_id) ∧
      validate_node_reference "default" [exampleMaster] "Master_0" =
        Except.error { cluster_id := "default", reference := "Master_0" } :=
  ⟨by decide, claim_C10 "default" [exampleMaster] "Master_0" (by decide)⟩

/-- Counterexample to C8 as stated: on a probe output that is all noise the
classification ends in a malformed version report, and on that exit path
the caller does not remove the workspace directory it created — only
`subprocess.CalledProcessError` is caught, so the malformed-report
exception propagates past both `rmtree` calls. -/
theorem claim_C8_counterexample :
    (validate_variant "auto" (ProbeOutcome.output "Loaded image: foo.tar")).result =
        Except.error VariantError.MalformedVersionReport ∧
      (validate_variant "auto"
          (ProbeOutcome.output "Loaded image: foo.tar")).workspace_created = true ∧
      (validate_variant "auto"
          (ProbeOutcome.output "Loaded image: foo.tar")).workspace_removed = false :=
  ⟨rfl, rfl, rfl⟩

/-- C8 (amended): the probe itself never deletes the workspace (it is a
pure classification of the captured output); the caller creates the
workspace on the `auto` path and removes it on success and on invocation
failure, but on a malformed version report — and exactly then — the error
propagates without the workspace being removed. -/
theorem claim_C8 (outcome : ProbeOutcome) :
    (validate_variant "auto" outcome).workspace_created = true ∧
      ((validate_variant "auto" outcome).workspace_removed = false ↔
        is_enterprise_run outcome =
          Except.error VariantError.MalformedVersionReport) := by
  cases outcome with
  | invocation_failure stderr =>
      simp [validate_variant, is_enterprise_run]
  | output text =>
      cases his : is_enterprise text with
      | error e =>
          cases e
          simp [validate_variant, is_enterprise_run, his]
      | ok b =>
          simp [validate_variant, is_enterprise_run, his]

end DcosE2e
